import Mathlib

/-!
Shallow embedding of `src/sqlservertest.py`: a linear script that connects
to a SQL Server via an ODBC driver, runs a version query, creates a table,
inserts one row, selects the rows, and closes the connection in a
try/except/finally shape.  The driver is modelled as an abstract interface
(`Driver`), the script body as an explicit state-passing function (`run`),
and the database environment as a concrete driver instance (`sqlServer`).
-/

/-- A Python exception, as the script can observe it: a `pyodbc.Error`
(caught by the script's handler), a `NameError` (raised when the `finally`
block reads the unbound `conn` after a failed connect), or any other
exception type (not caught by the handler). -/
inductive Exc : Type where
  | pyodbcError : String → Exc
  | nameError : String → Exc
  | otherError : String → Exc
  deriving DecidableEq

/-- Whether an exception matches the script's `except pyodbc.Error` clause. -/
def isPyodbcError : Exc → Bool
  | Exc.pyodbcError _ => true
  | _ => false

/-- `str(ex)`: the text printed for an exception. -/
def excStr : Exc → String
  | Exc.pyodbcError m => m
  | Exc.nameError m => m
  | Exc.otherError m => m

/-- One driver-level call made by the script, in the order performed. -/
inductive Event : Type where
  | connect : Event
  | execute : String → Event
  | fetchone : Event
  | fetchall : Event
  | commit : Event
  | close : Event
  deriving DecidableEq

/-- How a run of the script terminates: normally, or with an uncaught
exception propagating out of the script. -/
inductive Outcome : Type where
  | ok : Outcome
  | uncaught : Exc → Outcome
  deriving DecidableEq

/-- A value in a result-set column. -/
inductive Val : Type where
  | int : Int → Val
  | str : String → Val
  deriving DecidableEq

/-- A result row: a tuple of column values. -/
abbrev Row : Type := List Val

/-- `repr` of a column value, as Python prints it inside a row. -/
def pyReprVal : Val → String
  | Val.int n => toString n
  | Val.str s => "'" ++ s ++ "'"

/-- `print(row)`: the tuple-style rendering of a row. -/
def pyReprRow (r : Row) : String :=
  match r with
  | [v] => "(" ++ pyReprVal v ++ ",)"
  | _ => "(" ++ String.intercalate ", " (r.map pyReprVal) ++ ")"

/-- `print(row)` where `row` came from `fetchone` (which can yield `None`). -/
def pyReprOptRow : Option Row → String
  | none => "None"
  | some r => pyReprRow r

/-- The abstract driver interface the script calls into.  Each call returns
`some e` when it raises exception `e`, and threads the driver state `σ`.
`cursor()` never fails in this model and is not recorded. -/
structure Driver (σ : Type) : Type where
  connect : σ → Option Exc × σ
  execute : String → σ → Option Exc × σ
  fetchone : σ → Option Exc × Option Row × σ
  fetchall : σ → Option Exc × List Row × σ
  commit : σ → Option Exc × σ
  close : σ → σ

/-- What one run of the script produces: the lines printed to standard
output, the driver calls made, how the process terminated, and the final
driver state. -/
structure RunResult (σ : Type) : Type where
  output : List String
  events : List Event
  outcome : Outcome
  state : σ

/-- `"SELECT @@version;"` — the version-introspection query (line 27). -/
def versionSQL : String := "SELECT @@version;"

/-- The table-creation statement (line 33). -/
def createSQL : String := "CREATE TABLE TestTable (id INT PRIMARY KEY, name NVARCHAR(50));"

/-- The single-row insert statement (line 38). -/
def insertSQL : String := "INSERT INTO TestTable (id, name) VALUES (1, 'John Doe');"

/-- The full-table selection statement (line 43). -/
def selectSQL : String := "SELECT * FROM TestTable;"

/-- The four statement texts the script submits, in program order. -/
def sqlScript : List String := [versionSQL, createSQL, insertSQL, selectSQL]

/-- The `except pyodbc.Error` / `finally` tail of the script (lines 48-54).
`pending` is the exception in flight when the `try` body stopped (`none`
when it ran to completion); `connBound` records whether line 23 assigned
`conn`.  A pending `pyodbc.Error` is printed with the fixed prefix and
swallowed; any other pending exception survives the handler.  The
`finally` block evaluates `if conn:`: when `conn` was never assigned this
raises `NameError`, which replaces whatever was pending; otherwise the
connection is closed and a surviving exception propagates. -/
def afterTry {σ : Type} (d : Driver σ) (s : σ) (out : List String)
    (evs : List Event) (pending : Option Exc) (connBound : Bool) : RunResult σ :=
  let printed : List String :=
    match pending with
    | some e => if isPyodbcError e then out ++ ["An error occurred: " ++ excStr e] else out
    | none => out
  let surviving : Option Exc :=
    match pending with
    | some e => if isPyodbcError e then none else some e
    | none => none
  if connBound then
    { output := printed
      events := evs ++ [Event.close]
      outcome := match surviving with
        | some e => Outcome.uncaught e
        | none => Outcome.ok
      state := d.close s }
  else
    { output := printed
      events := evs
      outcome := Outcome.uncaught (Exc.nameError "conn")
      state := s }

/-- Lines 42-46: execute the selection, fetch all rows and print each. -/
def runSelect {σ : Type} (d : Driver σ) (r : Option Row) (s : σ) : RunResult σ :=
  match d.execute selectSQL s with
  | (some e, s8) =>
      afterTry d s8
        ["SQL Server version:", pyReprOptRow r, "Table created successfully.",
          "Data inserted successfully."]
        [Event.connect, Event.execute versionSQL, Event.fetchone,
          Event.execute createSQL, Event.commit, Event.execute insertSQL,
          Event.commit, Event.execute selectSQL] (some e) true
  | (none, s8) =>
      match d.fetchall s8 with
      | (some e, _, s9) =>
          afterTry d s9
            ["SQL Server version:", pyReprOptRow r, "Table created successfully.",
              "Data inserted successfully."]
            [Event.connect, Event.execute versionSQL, Event.fetchone,
              Event.execute createSQL, Event.commit, Event.execute insertSQL,
              Event.commit, Event.execute selectSQL, Event.fetchall] (some e) true
      | (none, rows, s9) =>
          afterTry d s9
            (["SQL Server version:", pyReprOptRow r, "Table created successfully.",
              "Data inserted successfully."] ++ rows.map pyReprRow)
            [Event.connect, Event.execute versionSQL, Event.fetchone,
              Event.execute createSQL, Event.commit, Event.execute insertSQL,
              Event.commit, Event.execute selectSQL, Event.fetchall] none true

/-- Lines 37-40: execute the insert, commit, print the success message. -/
def runInsert {σ : Type} (d : Driver σ) (r : Option Row) (s : σ) : RunResult σ :=
  match d.execute insertSQL s with
  | (some e, s6) =>
      afterTry d s6
        ["SQL Server version:", pyReprOptRow r, "Table created successfully."]
        [Event.connect, Event.execute versionSQL, Event.fetchone,
          Event.execute createSQL, Event.commit, Event.execute insertSQL]
        (some e) true
  | (none, s6) =>
      match d.commit s6 with
      | (some e, s7) =>
          afterTry d s7
            ["SQL Server version:", pyReprOptRow r, "Table created successfully."]
            [Event.connect, Event.execute versionSQL, Event.fetchone,
              Event.execute createSQL, Event.commit, Event.execute insertSQL,
              Event.commit] (some e) true
      | (none, s7) => runSelect d r s7

/-- Lines 32-35: execute the table creation, commit, print the success
message. -/
def runCreate {σ : Type} (d : Driver σ) (r : Option Row) (s : σ) : RunResult σ :=
  match d.execute createSQL s with
  | (some e, s4) =>
      afterTry d s4 ["SQL Server version:", pyReprOptRow r]
        [Event.connect, Event.execute versionSQL, Event.fetchone,
          Event.execute createSQL] (some e) true
  | (none, s4) =>
      match d.commit s4 with
      | (some e, s5) =>
          afterTry d s5 ["SQL Server version:", pyReprOptRow r]
            [Event.connect, Event.execute versionSQL, Event.fetchone,
              Event.execute createSQL, Event.commit] (some e) true
      | (none, s5) => runInsert d r s5

/-- Lines 26-30: execute the version query, fetch its row, print it. -/
def runVersion {σ : Type} (d : Driver σ) (s : σ) : RunResult σ :=
  match d.execute versionSQL s with
  | (some e, s2) =>
      afterTry d s2 [] [Event.connect, Event.execute versionSQL] (some e) true
  | (none, s2) =>
      match d.fetchone s2 with
      | (some e, _, s3) =>
          afterTry d s3 []
            [Event.connect, Event.execute versionSQL, Event.fetchone] (some e) true
      | (none, r, s3) => runCreate d r s3

/-- The whole script (lines 21-54): connect, then the try body, then the
except/finally tail.  When `connect` raises, `conn` is never assigned, so
the tail runs with `connBound := false`. -/
def run {σ : Type} (d : Driver σ) (s0 : σ) : RunResult σ :=
  match d.connect s0 with
  | (some e, s1) => afterTry d s1 [] [Event.connect] (some e) false
  | (none, s1) => runVersion d s1

/-- The statement texts among a trace of driver calls, in order. -/
def sqlsOf (evs : List Event) : List String :=
  evs.filterMap fun ev =>
    match ev with
    | Event.execute q => some q
    | _ => none

/-- Count of `commit` calls in a trace of driver calls. -/
def commitCount (evs : List Event) : Nat :=
  evs.countP fun ev =>
    match ev with
    | Event.commit => true
    | _ => false

/-- The configured host (line 4). -/
def server : String := "localhost"

/-- The configured database name (line 5). -/
def database : String := "master"

/-- The configured user name (line 6). -/
def username : String := "sa"

/-- The configured password (line 7). -/
def password : String := "!Passw0rd"

/-- The configured driver identifier (line 8). -/
def driver : String := "\x7bODBC Driver 18 for SQL Server\x7d"

/-- The connection descriptor as a function of the five configuration
values, exactly as the f-string of lines 11-19 interpolates them. -/
def connection_string_of (drv srv db uid pwd : String) : String :=
  "DRIVER=" ++ drv ++ ";" ++
  "SERVER=" ++ srv ++ ",1433;" ++
  "DATABASE=" ++ db ++ ";" ++
  "UID=" ++ uid ++ ";" ++
  "PWD=" ++ pwd ++ ";" ++
  "Encrypt=no;" ++
  "TrustServerCertificate=yes;"

/-- `connection_string` (lines 11-19) applied to the configured values. -/
def connection_string : String :=
  connection_string_of driver server database username password

/-- The state of the database environment the script runs against.
Modelled from the spec: the SQL Server instance itself is outside this
repository; §4.1 gives its behavior for the script's four statements
(connect fails when the server is unreachable or credentials are invalid,
creation fails when `TestTable` already exists, insert fails on
primary-key collision, selection returns the table's rows). -/
structure DB : Type where
  connectOk : Bool
  tableExists : Bool
  tableRows : List (Int × String)
  version : String
  pending : List Row
  deriving DecidableEq

/-- Driver error text when the connect step is refused. -/
def loginFailedMsg : String := "Login failed for user 'sa'."

/-- Driver error text when `TestTable` already exists. -/
def tableExistsMsg : String :=
  "There is already an object named 'TestTable' in the database."

/-- Driver error text when `TestTable` is missing. -/
def noTableMsg : String := "Invalid object name 'TestTable'."

/-- Driver error text on a primary-key collision. -/
def pkViolationMsg : String :=
  "Violation of PRIMARY KEY constraint. Cannot insert duplicate key in object 'dbo.TestTable'."

/-- The concrete driver-plus-server environment for the script's four
statements.  Modelled from the spec (§4.1): the server is not part of the
repository.  Errors are raised as `pyodbc.Error`; a statement that fails
leaves the database unchanged. -/
def sqlServer : Driver DB where
  connect := fun db =>
    if db.connectOk then (none, db)
    else (some (Exc.pyodbcError loginFailedMsg), db)
  execute := fun q db =>
    if q = versionSQL then
      (none, { db with pending := [[Val.str db.version]] })
    else if q = createSQL then
      if db.tableExists then (some (Exc.pyodbcError tableExistsMsg), db)
      else (none, { db with tableExists := true, tableRows := [] })
    else if q = insertSQL then
      if !db.tableExists then (some (Exc.pyodbcError noTableMsg), db)
      else if db.tableRows.any fun p => p.1 = 1 then
        (some (Exc.pyodbcError pkViolationMsg), db)
      else (none, { db with tableRows := db.tableRows ++ [(1, "John Doe")] })
    else if q = selectSQL then
      if !db.tableExists then (some (Exc.pyodbcError noTableMsg), db)
      else (none, { db with pending := db.tableRows.map fun p => [Val.int p.1, Val.str p.2] })
    else (some (Exc.pyodbcError "Incorrect syntax."), db)
  fetchone := fun db => (none, db.pending.head?, { db with pending := db.pending.tail })
  fetchall := fun db => (none, db.pending, { db with pending := [] })
  commit := fun db => (none, db)
  close := fun db => db

/-- A reachable server with valid credentials and no pre-existing
`TestTable`, reporting `v` as its version. -/
def freshDB (v : String) : DB :=
  { connectOk := true, tableExists := false, tableRows := [], version := v, pending := [] }

/-- A reachable server with valid credentials where `TestTable` already
exists holding rows `rs`. -/
def tableDB (v : String) (rs : List (Int × String)) : DB :=
  { connectOk := true, tableExists := true, tableRows := rs, version := v, pending := [] }

/-- A server that refuses the connect step (unreachable, or invalid
credentials). -/
def badLoginDB : DB :=
  { connectOk := false, tableExists := false, tableRows := [], version := "", pending := [] }

/-- No call of driver `d` ever raises an exception. -/
def neverFails {σ : Type} (d : Driver σ) : Prop :=
  (∀ s, (d.connect s).1 = none) ∧ (∀ q s, (d.execute q s).1 = none) ∧
  (∀ s, (d.fetchone s).1 = none) ∧ (∀ s, (d.fetchall s).1 = none) ∧
  (∀ s, (d.commit s).1 = none)

/-- A driver none of whose calls ever raises. -/
def okDriver : Driver Unit where
  connect := fun s => (none, s)
  execute := fun _ s => (none, s)
  fetchone := fun s => (none, none, s)
  fetchall := fun s => (none, [], s)
  commit := fun s => (none, s)
  close := fun s => s

/-- A driver whose connect step raises a non-driver exception (for
instance a `TypeError`), every other call succeeding. -/
def badConnectDriver : Driver Unit where
  connect := fun s => (some (Exc.otherError "TypeError: not a string"), s)
  execute := fun _ s => (none, s)
  fetchone := fun s => (none, none, s)
  fetchall := fun s => (none, [], s)
  commit := fun s => (none, s)
  close := fun s => s

/-- The projections of `afterTry` when the connection was bound: the
cleanup closes the connection on this path. -/
theorem afterTry_events_true {σ : Type} (d : Driver σ) (s : σ) (out : List String)
    (evs : List Event) (p : Option Exc) :
    (afterTry d s out evs p true).events = evs ++ [Event.close] := rfl

theorem afterTry_events_false {σ : Type} (d : Driver σ) (s : σ) (out : List String)
    (evs : List Event) (p : Option Exc) :
    (afterTry d s out evs p false).events = evs := rfl

theorem afterTry_output_py {σ : Type} (d : Driver σ) (s : σ) (out : List String)
    (evs : List Event) (e : Exc) (b : Bool) (h : isPyodbcError e = true) :
    (afterTry d s out evs (some e) b).output = out ++ ["An error occurred: " ++ excStr e] := by
  cases b <;> simp [afterTry, h]

theorem afterTry_outcome_py {σ : Type} (d : Driver σ) (s : σ) (out : List String)
    (evs : List Event) (e : Exc) (h : isPyodbcError e = true) :
    (afterTry d s out evs (some e) true).outcome = Outcome.ok := by
  simp [afterTry, h]

theorem afterTry_output_other {σ : Type} (d : Driver σ) (s : σ) (out : List String)
    (evs : List Event) (e : Exc) (b : Bool) (h : isPyodbcError e = false) :
    (afterTry d s out evs (some e) b).output = out := by
  cases b <;> simp [afterTry, h]

theorem afterTry_outcome_other {σ : Type} (d : Driver σ) (s : σ) (out : List String)
    (evs : List Event) (e : Exc) (h : isPyodbcError e = false) :
    (afterTry d s out evs (some e) true).outcome = Outcome.uncaught e := by
  simp [afterTry, h]

theorem runSelect_sqls {σ : Type} (d : Driver σ) (r : Option Row) (s : σ) :
    ∃ t, sqlsOf (runSelect d r s).events ++ t = sqlScript := by
  unfold runSelect
  split
  · exact ⟨_, rfl⟩
  · split
    · exact ⟨_, rfl⟩
    · exact ⟨_, rfl⟩

theorem runInsert_sqls {σ : Type} (d : Driver σ) (r : Option Row) (s : σ) :
    ∃ t, sqlsOf (runInsert d r s).events ++ t = sqlScript := by
  unfold runInsert
  split
  · exact ⟨_, rfl⟩
  · split
    · exact ⟨_, rfl⟩
    · exact runSelect_sqls d r _

theorem runCreate_sqls {σ : Type} (d : Driver σ) (r : Option Row) (s : σ) :
    ∃ t, sqlsOf (runCreate d r s).events ++ t = sqlScript := by
  unfold runCreate
  split
  · exact ⟨_, rfl⟩
  · split
    · exact ⟨_, rfl⟩
    · exact runInsert_sqls d r _

theorem runVersion_sqls {σ : Type} (d : Driver σ) (s : σ) :
    ∃ t, sqlsOf (runVersion d s).events ++ t = sqlScript := by
  unfold runVersion
  split
  · exact ⟨_, rfl⟩
  · split
    · exact ⟨_, rfl⟩
    · exact runCreate_sqls d _ _

theorem run_sqls_all {σ : Type} (d : Driver σ) (s : σ) (h : neverFails d) :
    sqlsOf (run d s).events = sqlScript := by
  obtain ⟨hc, he, hf1, hfa, hcm⟩ := h
  rcases q1 : d.connect s with ⟨e1, s1⟩
  obtain rfl : e1 = none := by have := hc s; rwa [q1] at this
  rcases q2 : d.execute versionSQL s1 with ⟨e2, s2⟩
  obtain rfl : e2 = none := by have := he versionSQL s1; rwa [q2] at this
  rcases q3 : d.fetchone s2 with ⟨e3, r, s3⟩
  obtain rfl : e3 = none := by have := hf1 s2; rwa [q3] at this
  rcases q4 : d.execute createSQL s3 with ⟨e4, s4⟩
  obtain rfl : e4 = none := by have := he createSQL s3; rwa [q4] at this
  rcases q5 : d.commit s4 with ⟨e5, s5⟩
  obtain rfl : e5 = none := by have := hcm s4; rwa [q5] at this
  rcases q6 : d.execute insertSQL s5 with ⟨e6, s6⟩
  obtain rfl : e6 = none := by have := he insertSQL s5; rwa [q6] at this
  rcases q7 : d.commit s6 with ⟨e7, s7⟩
  obtain rfl : e7 = none := by have := hcm s6; rwa [q7] at this
  rcases q8 : d.execute selectSQL s7 with ⟨e8, s8⟩
  obtain rfl : e8 = none := by have := he selectSQL s7; rwa [q8] at this
  rcases q9 : d.fetchall s8 with ⟨e9, rows, s9⟩
  obtain rfl : e9 = none := by have := hfa s8; rwa [q9] at this
  simp only [run, runVersion, runCreate, runInsert, runSelect, q1, q2, q3, q4,
    q5, q6, q7, q8, q9]
  rfl

theorem close_runSelect {σ : Type} (d : Driver σ) (r : Option Row) (s : σ) :
    Event.close ∈ (runSelect d r s).events := by
  unfold runSelect
  split
  · simp [afterTry_events_true]
  · split <;> simp [afterTry_events_true]

theorem close_runInsert {σ : Type} (d : Driver σ) (r : Option Row) (s : σ) :
    Event.close ∈ (runInsert d r s).events := by
  unfold runInsert
  split
  · simp [afterTry_events_true]
  · split
    · simp [afterTry_events_true]
    · exact close_runSelect d r _

theorem close_runCreate {σ : Type} (d : Driver σ) (r : Option Row) (s : σ) :
    Event.close ∈ (runCreate d r s).events := by
  unfold runCreate
  split
  · simp [afterTry_events_true]
  · split
    · simp [afterTry_events_true]
    · exact close_runInsert d r _

theorem close_runVersion {σ : Type} (d : Driver σ) (s : σ) :
    Event.close ∈ (runVersion d s).events := by
  unfold runVersion
  split
  · simp [afterTry_events_true]
  · split
    · simp [afterTry_events_true]
    · exact close_runCreate d _ _

theorem runSelect_events_ext {σ : Type} (d : Driver σ) (r : Option Row) (s : σ) :
    ∃ t, (runSelect d r s).events =
      [Event.connect, Event.execute versionSQL, Event.fetchone,
        Event.execute createSQL, Event.commit, Event.execute insertSQL,
        Event.commit] ++ t := by
  unfold runSelect
  split
  · exact ⟨_, rfl⟩
  · split
    · exact ⟨_, rfl⟩
    · exact ⟨_, rfl⟩

theorem runInsert_events_ext {σ : Type} (d : Driver σ) (r : Option Row) (s : σ) :
    ∃ t, (runInsert d r s).events =
      [Event.connect, Event.execute versionSQL, Event.fetchone,
        Event.execute createSQL, Event.commit] ++ t := by
  unfold runInsert
  split
  · exact ⟨_, rfl⟩
  · split
    · exact ⟨_, rfl⟩
    · obtain ⟨t, ht⟩ := runSelect_events_ext d r _
      exact ⟨[Event.execute insertSQL, Event.commit] ++ t, ht.trans rfl⟩

/-- Claim C1: against a reachable server with valid credentials and no
pre-existing `TestTable` (so every driver call succeeds), the run prints a
version string, the two success messages, and exactly one row
`(1, 'John Doe')` from the final selection, and terminates normally. -/
theorem fresh_run_prints_expected (v : String) :
    (run sqlServer (freshDB v)).output =
      ["SQL Server version:", pyReprRow [Val.str v],
        "Table created successfully.", "Data inserted successfully.",
        "(1, 'John Doe')"] ∧
    (run sqlServer (freshDB v)).outcome = Outcome.ok := ⟨rfl, rfl⟩

/-- Claim C2: every run submits to the driver a prefix of the four fixed
statement texts, in program order; a run in which no driver call fails
submits all four. -/
theorem sql_statements_submitted (σ : Type) (d : Driver σ) (s : σ) :
    (∃ t, sqlsOf (run d s).events ++ t = sqlScript) ∧
    (neverFails d → sqlsOf (run d s).events = sqlScript) := by
  constructor
  · unfold run
    split
    · exact ⟨_, rfl⟩
    · exact runVersion_sqls d _
  · exact run_sqls_all d s

/-- Claim C3 (defect evaluation): when the connect step fails, the
`finally` block reads the never-assigned `conn`, so the run ends with an
uncaught `NameError` — the crash the spec says must not happen — after
printing the driver error; no `close` call is ever made. -/
theorem failed_connect_cleanup_crashes :
    (run sqlServer badLoginDB).output = ["An error occurred: " ++ loginFailedMsg] ∧
    (run sqlServer badLoginDB).events = [Event.connect] ∧
    (run sqlServer badLoginDB).outcome = Outcome.uncaught (Exc.nameError "conn") :=
  ⟨rfl, rfl, rfl⟩

/-- Claim C7: when `TestTable` already exists, the creation step fails
with a driver error: the error is printed, the insert and selection are
never submitted, the connection is still closed, and the run terminates
normally. -/
theorem existing_table_run_reports_error (v : String) (rs : List (Int × String)) :
    (run sqlServer (tableDB v rs)).output =
      ["SQL Server version:", pyReprRow [Val.str v],
        "An error occurred: " ++ tableExistsMsg] ∧
    (run sqlServer (tableDB v rs)).events =
      [Event.connect, Event.execute versionSQL, Event.fetchone,
        Event.execute createSQL, Event.close] ∧
    (run sqlServer (tableDB v rs)).outcome = Outcome.ok := ⟨rfl, rfl, rfl⟩

/-- Claim C5: once the connect step has succeeded, the connection is
closed on every exit path of the run. -/
theorem opened_connection_closed (σ : Type) (d : Driver σ) (s s1 : σ)
    (h : d.connect s = (none, s1)) :
    Event.close ∈ (run d s).events := by
  simp only [run, h]
  exact close_runVersion d s1

theorem opened_connection_closed_witness :
    Event.close ∈ (run sqlServer (freshDB "Microsoft SQL Server 2022")).events :=
  opened_connection_closed DB sqlServer (freshDB "Microsoft SQL Server 2022")
    (freshDB "Microsoft SQL Server 2022") rfl

/-- Claim C4: whichever of the five steps (connect, version query, table
creation, insert, selection) raises a driver error first, no later step
is submitted, the error is printed, control reaches the cleanup step, and
the driver error does not propagate out of the run. -/
theorem driver_error_stops_and_reported :
    (∀ (σ : Type) (d : Driver σ) (s s1 : σ) (e : Exc),
      d.connect s = (some e, s1) → isPyodbcError e = true →
      (run d s).events = [Event.connect] ∧
      (run d s).output = ["An error occurred: " ++ excStr e] ∧
      (run d s).outcome = Outcome.uncaught (Exc.nameError "conn")) ∧
    (∀ (σ : Type) (d : Driver σ) (s s1 s2 : σ) (e : Exc),
      d.connect s = (none, s1) →
      d.execute versionSQL s1 = (some e, s2) → isPyodbcError e = true →
      (run d s).events = [Event.connect, Event.execute versionSQL, Event.close] ∧
      (run d s).output = ["An error occurred: " ++ excStr e] ∧
      (run d s).outcome = Outcome.ok) ∧
    (∀ (σ : Type) (d : Driver σ) (s s1 s2 s3 s4 : σ) (r : Option Row) (e : Exc),
      d.connect s = (none, s1) →
      d.execute versionSQL s1 = (none, s2) →
      d.fetchone s2 = (none, r, s3) →
      d.execute createSQL s3 = (some e, s4) → isPyodbcError e = true →
      (run d s).events =
        [Event.connect, Event.execute versionSQL, Event.fetchone,
          Event.execute createSQL, Event.close] ∧
      (run d s).output =
        ["SQL Server version:", pyReprOptRow r, "An error occurred: " ++ excStr e] ∧
      (run d s).outcome = Outcome.ok) ∧
    (∀ (σ : Type) (d : Driver σ) (s s1 s2 s3 s4 s5 s6 : σ) (r : Option Row) (e : Exc),
      d.connect s = (none, s1) →
      d.execute versionSQL s1 = (none, s2) →
      d.fetchone s2 = (none, r, s3) →
      d.execute createSQL s3 = (none, s4) →
      d.commit s4 = (none, s5) →
      d.execute insertSQL s5 = (some e, s6) → isPyodbcError e = true →
      (run d s).events =
        [Event.connect, Event.execute versionSQL, Event.fetchone,
          Event.execute createSQL, Event.commit, Event.execute insertSQL,
          Event.close] ∧
      (run d s).output =
        ["SQL Server version:", pyReprOptRow r, "Table created successfully.",
          "An error occurred: " ++ excStr e] ∧
      (run d s).outcome = Outcome.ok) ∧
    (∀ (σ : Type) (d : Driver σ) (s s1 s2 s3 s4 s5 s6 s7 s8 : σ) (r : Option Row) (e : Exc),
      d.connect s = (none, s1) →
      d.execute versionSQL s1 = (none, s2) →
      d.fetchone s2 = (none, r, s3) →
      d.execute createSQL s3 = (none, s4) →
      d.commit s4 = (none, s5) →
      d.execute insertSQL s5 = (none, s6) →
      d.commit s6 = (none, s7) →
      d.execute selectSQL s7 = (some e, s8) → isPyodbcError e = true →
      (run d s).events =
        [Event.connect, Event.execute versionSQL, Event.fetchone,
          Event.execute createSQL, Event.commit, Event.execute insertSQL,
          Event.commit, Event.execute selectSQL, Event.close] ∧
      (run d s).output =
        ["SQL Server version:", pyReprOptRow r, "Table created successfully.",
          "Data inserted successfully.", "An error occurred: " ++ excStr e] ∧
      (run d s).outcome = Outcome.ok) := by
  refine ⟨?_, ?_, ?_, ?_, ?_⟩
  · intro σ d s s1 e h1 hp
    simp only [run, h1]
    exact ⟨rfl, afterTry_output_py _ _ _ _ _ _ hp, rfl⟩
  · intro σ d s s1 s2 e h1 h2 hp
    simp only [run, runVersion, h1, h2]
    exact ⟨rfl, afterTry_output_py _ _ _ _ _ _ hp, afterTry_outcome_py _ _ _ _ _ hp⟩
  · intro σ d s s1 s2 s3 s4 r e h1 h2 h3 h4 hp
    simp only [run, runVersion, runCreate, h1, h2, h3, h4]
    exact ⟨rfl, afterTry_output_py _ _ _ _ _ _ hp, afterTry_outcome_py _ _ _ _ _ hp⟩
  · intro σ d s s1 s2 s3 s4 s5 s6 r e h1 h2 h3 h4 h5 h6 hp
    simp only [run, runVersion, runCreate, runInsert, h1, h2, h3, h4, h5, h6]
    exact ⟨rfl, afterTry_output_py _ _ _ _ _ _ hp, afterTry_outcome_py _ _ _ _ _ hp⟩
  · intro σ d s s1 s2 s3 s4 s5 s6 s7 s8 r e h1 h2 h3 h4 h5 h6 h7 h8 hp
    simp only [run, runVersion, runCreate, runInsert, runSelect, h1, h2, h3, h4,
      h5, h6, h7, h8]
    exact ⟨rfl, afterTry_output_py _ _ _ _ _ _ hp, afterTry_outcome_py _ _ _ _ _ hp⟩

theorem driver_error_stops_and_reported_witness :
    (run sqlServer (tableDB "V" [])).events =
      [Event.connect, Event.execute versionSQL, Event.fetchone,
        Event.execute createSQL, Event.close] ∧
    (run sqlServer (tableDB "V" [])).output =
      ["SQL Server version:", pyReprOptRow (some [Val.str "V"]),
        "An error occurred: " ++ excStr (Exc.pyodbcError tableExistsMsg)] ∧
    (run sqlServer (tableDB "V" [])).outcome = Outcome.ok :=
  driver_error_stops_and_reported.2.2.1 DB sqlServer (tableDB "V" [])
    (tableDB "V" [])
    { connectOk := true, tableExists := true, tableRows := [], version := "V",
      pending := [[Val.str "V"]] }
    (tableDB "V" []) (tableDB "V" []) (some [Val.str "V"])
    (Exc.pyodbcError tableExistsMsg) rfl rfl rfl rfl rfl

/-- Claim C6: every driver-level error, whatever its kind and whichever
step raised it (arbitrary output so far, arbitrary call trace, connection
bound or not), is handled by the one top-level handler: printed with the
same fixed prefix and swallowed, with no per-kind differentiation. -/
theorem driver_errors_handled_uniformly (e : Exc) (he : isPyodbcError e = true)
    (σ : Type) (d : Driver σ) (s : σ) (out : List String) (evs : List Event) :
    ((afterTry d s out evs (some e) true).output =
        out ++ ["An error occurred: " ++ excStr e] ∧
      (afterTry d s out evs (some e) true).outcome = Outcome.ok) ∧
    (afterTry d s out evs (some e) false).output =
      out ++ ["An error occurred: " ++ excStr e] :=
  ⟨⟨afterTry_output_py _ _ _ _ _ _ he, afterTry_outcome_py _ _ _ _ _ he⟩,
    afterTry_output_py _ _ _ _ _ _ he⟩

theorem driver_errors_handled_uniformly_witness :
    ((afterTry sqlServer badLoginDB ["x"] [Event.connect]
        (some (Exc.pyodbcError "boom")) true).output =
      ["x", "An error occurred: boom"] ∧
      (afterTry sqlServer badLoginDB ["x"] [Event.connect]
        (some (Exc.pyodbcError "boom")) true).outcome = Outcome.ok) ∧
    (afterTry sqlServer badLoginDB ["x"] [Event.connect]
        (some (Exc.pyodbcError "boom")) false).output =
      ["x", "An error occurred: boom"] :=
  driver_errors_handled_uniformly (Exc.pyodbcError "boom") rfl DB sqlServer
    badLoginDB ["x"] [Event.connect]

/-- Claim C8: a commit is submitted immediately after the creation
statement succeeds and immediately after the insert statement succeeds,
and a failed creation or insert is followed by no further commit. -/
theorem commit_follows_successful_statement :
    (∀ (σ : Type) (d : Driver σ) (s s1 s2 s3 s4 : σ) (r : Option Row) (e : Exc),
      d.connect s = (none, s1) →
      d.execute versionSQL s1 = (none, s2) →
      d.fetchone s2 = (none, r, s3) →
      d.execute createSQL s3 = (some e, s4) →
      commitCount (run d s).events = 0) ∧
    (∀ (σ : Type) (d : Driver σ) (s s1 s2 s3 s4 : σ) (r : Option Row),
      d.connect s = (none, s1) →
      d.execute versionSQL s1 = (none, s2) →
      d.fetchone s2 = (none, r, s3) →
      d.execute createSQL s3 = (none, s4) →
      ∃ t, (run d s).events =
        [Event.connect, Event.execute versionSQL, Event.fetchone,
          Event.execute createSQL, Event.commit] ++ t) ∧
    (∀ (σ : Type) (d : Driver σ) (s s1 s2 s3 s4 s5 s6 : σ) (r : Option Row) (e : Exc),
      d.connect s = (none, s1) →
      d.execute versionSQL s1 = (none, s2) →
      d.fetchone s2 = (none, r, s3) →
      d.execute createSQL s3 = (none, s4) →
      d.commit s4 = (none, s5) →
      d.execute insertSQL s5 = (some e, s6) →
      (run d s).events =
        [Event.connect, Event.execute versionSQL, Event.fetchone,
          Event.execute createSQL, Event.commit, Event.execute insertSQL,
          Event.close] ∧
      commitCount (run d s).events = 1) ∧
    (∀ (σ : Type) (d : Driver σ) (s s1 s2 s3 s4 s5 s6 : σ) (r : Option Row),
      d.connect s = (none, s1) →
      d.execute versionSQL s1 = (none, s2) →
      d.fetchone s2 = (none, r, s3) →
      d.execute createSQL s3 = (none, s4) →
      d.commit s4 = (none, s5) →
      d.execute insertSQL s5 = (none, s6) →
      ∃ t, (run d s).events =
        [Event.connect, Event.execute versionSQL, Event.fetchone,
          Event.execute createSQL, Event.commit, Event.execute insertSQL,
          Event.commit] ++ t) := by
  refine ⟨?_, ?_, ?_, ?_⟩
  · intro σ d s s1 s2 s3 s4 r e h1 h2 h3 h4
    simp only [run, runVersion, runCreate, h1, h2, h3, h4]
    rfl
  · intro σ d s s1 s2 s3 s4 r h1 h2 h3 h4
    simp only [run, runVersion, runCreate, h1, h2, h3, h4]
    rcases q5 : d.commit s4 with ⟨eo, s5⟩
    cases eo with
    | some e =>
        simp only [q5]
        exact ⟨[Event.close], afterTry_events_true _ _ _ _ _⟩
    | none =>
        simp only [q5]
        obtain ⟨t, ht⟩ := runInsert_events_ext d r s5
        exact ⟨t, ht⟩
  · intro σ d s s1 s2 s3 s4 s5 s6 r e h1 h2 h3 h4 h5 h6
    simp only [run, runVersion, runCreate, runInsert, h1, h2, h3, h4, h5, h6]
    exact ⟨rfl, rfl⟩
  · intro σ d s s1 s2 s3 s4 s5 s6 r h1 h2 h3 h4 h5 h6
    simp only [run, runVersion, runCreate, runInsert, h1, h2, h3, h4, h5, h6]
    rcases q7 : d.commit s6 with ⟨eo, s7⟩
    cases eo with
    | some e =>
        simp only [q7]
        exact ⟨[Event.close], afterTry_events_true _ _ _ _ _⟩
    | none =>
        simp only [q7]
        exact runSelect_events_ext d r s7

theorem commit_follows_successful_statement_witness :
    commitCount (run sqlServer (tableDB "W" [])).events = 0 :=
  commit_follows_successful_statement.1 DB sqlServer (tableDB "W" [])
    (tableDB "W" [])
    { connectOk := true, tableExists := true, tableRows := [], version := "W",
      pending := [[Val.str "W"]] }
    (tableDB "W" []) (tableDB "W" []) (some [Val.str "W"])
    (Exc.pyodbcError tableExistsMsg) rfl rfl rfl rfl

/-- Claim C9 counterexample: a non-driver exception raised by the connect
step itself does not propagate out of the run — the cleanup block's
`NameError` replaces it — refuting the claim that any non-driver
exception raised during the run propagates out of the script. -/
theorem connect_other_exc_superseded :
    (run badConnectDriver ()).outcome = Outcome.uncaught (Exc.nameError "conn") ∧
    (run badConnectDriver ()).outcome ≠
      Outcome.uncaught (Exc.otherError "TypeError: not a string") ∧
    (run badConnectDriver ()).output = [] := by
  refine ⟨rfl, ?_, rfl⟩
  intro h
  simp only [run, badConnectDriver] at h
  cases h

/-- Claim C9 as amended: the handler catches only the driver's error type.
A non-driver exception raised once the connection is bound is not printed,
the cleanup block still closes the connection, and the exception
propagates out; a non-driver exception from the connect step itself is
superseded by the `NameError` the cleanup block raises on the unbound
`conn`. -/
theorem non_driver_exc_propagates :
    (∀ (e : Exc), isPyodbcError e = false →
      ∀ (σ : Type) (d : Driver σ) (s : σ) (out : List String) (evs : List Event),
        (afterTry d s out evs (some e) true).output = out ∧
        (afterTry d s out evs (some e) true).events = evs ++ [Event.close] ∧
        (afterTry d s out evs (some e) true).outcome = Outcome.uncaught e) ∧
    (∀ (σ : Type) (d : Driver σ) (s s1 : σ) (e : Exc),
      d.connect s = (some e, s1) → isPyodbcError e = false →
      (run d s).output = [] ∧
      (run d s).outcome = Outcome.uncaught (Exc.nameError "conn")) := by
  constructor
  · intro e he σ d s out evs
    exact ⟨afterTry_output_other _ _ _ _ _ _ he, afterTry_events_true _ _ _ _ _,
      afterTry_outcome_other _ _ _ _ _ he⟩
  · intro σ d s s1 e h1 he
    simp only [run, h1]
    exact ⟨afterTry_output_other _ _ _ _ _ _ he, rfl⟩

theorem non_driver_exc_propagates_witness :
    (run badConnectDriver ()).output = [] ∧
    (run badConnectDriver ()).outcome = Outcome.uncaught (Exc.nameError "conn") :=
  non_driver_exc_propagates.2 Unit badConnectDriver () ()
    (Exc.otherError "TypeError: not a string") rfl rfl

/-- Claim C10: for every choice of configuration values the connection
descriptor carries the hard-coded port 1433 inside its SERVER field and
ends with `Encrypt=no;TrustServerCertificate=yes;`, and the configured
descriptor is exactly the literal the script builds. -/
theorem connection_string_hardcodes_port_and_tls :
    (∀ drv srv db uid pwd : String,
      ∃ a b, connection_string_of drv srv db uid pwd =
          a ++ ("SERVER=" ++ srv ++ ",1433;") ++ b ∧
        ∃ c, connection_string_of drv srv db uid pwd =
          c ++ "Encrypt=no;TrustServerCertificate=yes;") ∧
    connection_string =
      "DRIVER=\x7bODBC Driver 18 for SQL Server\x7d;SERVER=localhost,1433;DATABASE=master;UID=sa;PWD=!Passw0rd;Encrypt=no;TrustServerCertificate=yes;" := by
  constructor
  · intro drv srv db uid pwd
    refine ⟨"DRIVER=" ++ drv ++ ";",
      "DATABASE=" ++ db ++ ";" ++ "UID=" ++ uid ++ ";" ++ "PWD=" ++ pwd ++ ";" ++
        "Encrypt=no;" ++ "TrustServerCertificate=yes;", ?_,
      "DRIVER=" ++ drv ++ ";" ++ "SERVER=" ++ srv ++ ",1433;" ++ "DATABASE=" ++
        db ++ ";" ++ "UID=" ++ uid ++ ";" ++ "PWD=" ++ pwd ++ ";", ?_⟩
    · simp only [connection_string_of, String.append_assoc]
    · simp only [connection_string_of, String.append_assoc]
      rfl
  · rfl

theorem sql_statements_submitted_witness :
    sqlsOf (run okDriver ()).events = sqlScript :=
  (sql_statements_submitted Unit okDriver ()).2
    ⟨fun _ => rfl, fun _ _ => rfl, fun _ => rfl, fun _ => rfl, fun _ => rfl⟩
